import Mathlib

/-!
A shallow embedding of `pdf_search_download_api.py`
(class `GoogleCustomSearchPDFDownloader`).

The network is modelled as an environment: for the search loop, a function
from the page index to that page's response; for the download loop, a
function from the 0-based URL position to that URL's HTTP interaction.  A
download interaction fixes status and headers, and a body *stream* that
either delivers the complete body or raises one of the caught exception
classes mid-stream after a partial prefix has been written — the `try`
block of the loop spans both `requests.get` and the `iter_content` loop.
The filesystem of the destination directory is a map from positional paths
to file sizes.  Wall-clock effects (`time.sleep`, progress bars) and log
text are not modelled; the *trigger* of the results-file save is modelled
as a counter.
-/

namespace PdfSearchDownload

/-- Python `str.isspace` characters relevant to `str.strip()`:
space, tab, newline, carriage return, vertical tab, form feed. -/
def pyIsSpace (c : Char) : Bool :=
  c == ' ' || c == '\t' || c == '\n' || c == '\r' || c.toNat == 11 || c.toNat == 12

/-- `query.strip() == ""` (also true for the empty string, covering Python's
`not query or query.strip() == ""` at line 71). -/
def pyStripIsEmpty (s : String) : Bool :=
  s.data.all pyIsSpace

/-- Python `s.lower()`, ASCII case folding. -/
def strLower (s : String) : String :=
  String.mk (s.data.map Char.toLower)

/-- Python `url.lower().endswith('.pdf')` (lines 113 and 184). -/
def endsWithPdfCI (url : String) : Bool :=
  List.isSuffixOf ".pdf".data (url.data.map Char.toLower)

/-- Python `needle in hay` substring containment on strings. -/
def containsSub (hay needle : String) : Bool :=
  hay.data.tails.any (fun t => needle.data.isPrefixOf t)

/-- Python `l[:n]` for a possibly negative `n` (line 118's
`pdf_urls[:num_results]`). -/
def pySliceTo (l : List String) (n : Int) : List String :=
  if 0 ≤ n then l.take n.toNat else l.take (l.length - (-n).toNat)

/-! ## Discovery: `search_pdfs` -/

/-- Result of parsing one page's JSON body: `malformed` models a
`json.JSONDecodeError`; `parsed none` models a body without an `items`
key; each item is its optional `link` field. -/
inductive PageItems where
  | malformed : PageItems
  | parsed : Option (List (Option String)) → PageItems
deriving DecidableEq, Repr

/-- One page request's result: `exn` models a `requests.exceptions.RequestException`
raised by `requests.get`; otherwise an HTTP status code with a body. -/
inductive PageResponse where
  | exn : PageResponse
  | http : Nat → PageItems → PageResponse
deriving DecidableEq, Repr

/-- Observable result of one `search_pdfs` call: the returned URL list, the
`start` offsets of the page requests actually issued (in order), and how many
times `save_links_to_file` ran. -/
structure SearchTrace where
  urls : List String
  starts : List Int
  saves : Nat
deriving DecidableEq, Repr

/-- Record one more issued page request at the front of the trace. -/
def addStart (s : Int) (t : SearchTrace) : SearchTrace :=
  ⟨t.urls, s :: t.starts, t.saves⟩

/-- The fall-through return path of `search_pdfs` (lines 130-134): save once
iff the accumulated list is non-empty, issue no further requests. -/
def finishSearch (acc : List String) : SearchTrace :=
  ⟨acc, [], if acc.isEmpty then 0 else 1⟩

/-- The item scan of one page (lines 111-118): append each item whose `link`
case-insensitively ends in `.pdf`; after each append, if the accumulated
length has reached `num_results`, return the `[:num_results]` slice with the
early-return flag set. -/
def scanItems (numResults : Int) : List String → List (Option String) → List String × Bool
  | acc, [] => (acc, false)
  | acc, item :: rest =>
    match item with
    | none => scanItems numResults acc rest
    | some link =>
      if endsWithPdfCI link then
        let acc1 := acc ++ [link]
        if numResults ≤ (acc1.length : Int) then (pySliceTo acc1 numResults, true)
        else scanItems numResults acc1 rest
      else scanItems numResults acc rest

/-- The page loop of `search_pdfs` (lines 81-128): `remaining` pages left to
request, `i` the 0-based page index, `acc` the URLs accumulated so far.
HTTP 400, HTTP 403, any other non-200 status, a transport exception and a
malformed body all `break`; a page without `items` falls through to the next
page; reaching `num_results` returns the slice after saving. -/
def searchLoop (numResults : Int) (env : Nat → PageResponse) :
    Nat → Nat → List String → SearchTrace
  | 0, _, acc => finishSearch acc
  | r + 1, i, acc =>
    let start : Int := (i : Int) * 10 + 1
    match env i with
    | .exn => addStart start (finishSearch acc)
    | .http code items =>
      if code = 400 then addStart start (finishSearch acc)
      else if code = 403 then addStart start (finishSearch acc)
      else if code ≠ 200 then addStart start (finishSearch acc)
      else
        match items with
        | .malformed => addStart start (finishSearch acc)
        | .parsed none => addStart start (searchLoop numResults env r (i + 1) acc)
        | .parsed (some its) =>
          let res := scanItems numResults acc its
          if res.2 then addStart start ⟨res.1, [], 1⟩
          else addStart start (searchLoop numResults env r (i + 1) res.1)

/-- `search_pdfs(query, num_results)` (lines 59-134) under the page
environment `env`.  An empty or whitespace-only query returns immediately;
otherwise `num_requests = min(10, (num_results + 9) // 10)` pages are
attempted (Python `//` is floor division, `Int.fdiv`; `range` of a
non-positive bound is empty, hence `Int.toNat`). -/
def searchPdfs (query : String) (numResults : Int) (env : Nat → PageResponse) : SearchTrace :=
  if pyStripIsEmpty query then ⟨[], [], 0⟩
  else
    let numRequests : Int := min 10 ((numResults + 9).fdiv 10)
    searchLoop numResults env numRequests.toNat 0 []

/-! ## Retrieval: `download_pdfs` -/

/-- The positional output path `os.path.join(output_dir, f"document_{i}.pdf")`
(line 158).  Distinct `(dir, i)` pairs give distinct path strings, so the
path is modelled by the pair itself. -/
structure DocPath where
  dir : String
  idx : Nat
deriving DecidableEq, Repr

def docPath (dir : String) (i : Nat) : DocPath := ⟨dir, i⟩

/-- The destination directory's state: positional path to file size. -/
def Fs : Type := DocPath → Option Nat

def emptyFs : Fs := fun _ => none

def fsWrite (fs : Fs) (p : DocPath) (size : Nat) : Fs :=
  fun q => if q = p then some size else fs q

def fsRemove (fs : Fs) (p : DocPath) : Fs :=
  fun q => if q = p then none else fs q

/-- `os.path.getsize` on the modelled filesystem (0 if absent). -/
def fsSize (fs : Fs) (p : DocPath) : Nat :=
  (fs p).getD 0

/-- One of the three exception classes caught by the handlers at lines
213-221: `requests.exceptions.Timeout`, `requests.exceptions.ConnectionError`,
or any other `Exception` (with its message). -/
inductive ExcKind where
  | timeout : ExcKind
  | connError : ExcKind
  | other : String → ExcKind
deriving DecidableEq, Repr

/-- How the streamed body of a response unfolds when the code reaches the
`iter_content` loop (lines 194-196, inside the same `try` block as
`requests.get`): either the complete body arrives (`complete`, with its
total byte count), or one of the caught exception classes is raised
mid-stream after a partial prefix — possibly zero bytes — has already been
written to the open file (`interrupted`). -/
inductive BodyStream where
  | complete : Nat → BodyStream
  | interrupted : Nat → ExcKind → BodyStream
deriving DecidableEq, Repr

/-- One URL's HTTP interaction: an exception raised by `requests.get`
itself before any file is touched, or a status code with a declared
`content-type` header and a body stream (which is only consumed — and can
only be interrupted — if the code reaches the streaming branch). -/
inductive DlResponse where
  | timeout : DlResponse
  | connError : DlResponse
  | otherExc : String → DlResponse
  | http : Nat → String → BodyStream → DlResponse
deriving DecidableEq, Repr

inductive FailKind where
  | timeout : FailKind
  | connError : FailKind
  | emptyDownload : FailKind
  | other : String → FailKind
deriving DecidableEq, Repr

/-- The outcome class recorded by the exception handler that catches a
given exception (lines 213-221). -/
def ExcKind.toFailKind : ExcKind → FailKind
  | .timeout => .timeout
  | .connError => .connError
  | .other m => .other m

/-- Per-URL classification produced by the download loop body. -/
inductive DownloadOutcome where
  | success : DocPath → Nat → DownloadOutcome
  | skippedWrongType : String → DownloadOutcome
  | skippedHTTPError : Nat → DownloadOutcome
  | failed : FailKind → DownloadOutcome
deriving DecidableEq, Repr

def DownloadOutcome.isSuccess : DownloadOutcome → Bool
  | .success _ _ => true
  | _ => false

/-- The content-type allow-list check (line 182): any of the three tokens is
a substring of the lowercased `content-type` header. -/
def isPdfContentType (ct : String) : Bool :=
  containsSub ct "application/pdf" || containsSub ct "application/x-pdf" ||
    containsSub ct "application/octet-stream"

/-- The body of the download loop for one URL at 1-based position `i`
(lines 157-221): non-200 → skipped; 200 with neither a PDF-ish content type
nor a `.pdf` URL → skipped; otherwise stream the body to the positional
path (`'wb'` truncates), and then either the stream completes — delete the
file and fail if its size is zero, else succeed — or an exception
interrupts it mid-stream, and because the handlers at lines 213-221 sit
outside the size check at lines 199-205, the partial (possibly zero-byte)
file is left on disk with a `failed` outcome. -/
def processUrl (dir : String) (fs : Fs) (i : Nat) (url : String) (resp : DlResponse) :
    Fs × DownloadOutcome :=
  match resp with
  | .timeout => (fs, .failed .timeout)
  | .connError => (fs, .failed .connError)
  | .otherExc m => (fs, .failed (.other m))
  | .http status ctype body =>
    if status = 200 then
      let ct := strLower ctype
      if isPdfContentType ct || endsWithPdfCI url then
        let p := docPath dir i
        match body with
        | .complete b =>
          let fs1 := fsWrite fs p b
          if 0 < fsSize fs1 p then (fs1, .success p b)
          else (fsRemove fs1 p, .failed .emptyDownload)
        | .interrupted b e => (fsWrite fs p b, .failed e.toFailKind)
      else (fs, .skippedWrongType ct)
    else (fs, .skippedHTTPError status)

/-- The download loop (lines 156-224): strictly sequential, one outcome per
URL, the `try`/`except` around each iteration keeping any per-URL failure
from aborting the loop.  `j` is the 0-based position of the head URL. -/
def downloadLoop (dir : String) (env : Nat → DlResponse) :
    List String → Nat → Fs → Fs × List DownloadOutcome
  | [], _, fs => (fs, [])
  | url :: rest, j, fs =>
    let step := processUrl dir fs (j + 1) url (env j)
    let tail := downloadLoop dir env rest (j + 1) step.1
    (tail.1, step.2 :: tail.2)

/-- `download_pdfs(urls, output_dir)` (lines 136-226) under response
environment `env`, starting from directory state `fs0`. -/
def downloadPdfs (urls : List String) (dir : String) (env : Nat → DlResponse) (fs0 : Fs) :
    Fs × List DownloadOutcome :=
  downloadLoop dir env urls 0 fs0

/-! ## `main`'s count handling -/

/-- The result-count input handling in `main` (lines 239-244):
`min(int(num_results), 100)`, falling back to 10 when `int` raises.
`none` models a non-integer input string. -/
def mainNumResults (input : Option Int) : Int :=
  match input with
  | some n => min n 100
  | none => 10

end PdfSearchDownload

/-! ## Concrete environments and states used in scenarios -/

namespace PdfSearchDownload

/-- A download-response environment giving the same response for every URL. -/
def dlEnvOf (r : DlResponse) : Nat → DlResponse := fun _ => r

/-- A destination directory holding a stale file at the first positional path. -/
def staleFs : Fs := fun p => if p = docPath "d" 1 then some 5 else none

/-- A page environment answering HTTP 403 to every page request. -/
def envAll403 : Nat → PageResponse := fun _ => .http 403 (.parsed none)

/-- A page environment whose every page carries 30 matching PDF links. -/
def envAbundant : Nat → PageResponse :=
  fun _ => .http 200 (.parsed (some (List.replicate 30 (some "a.pdf"))))

/-- A page environment whose every page carries a single matching PDF link. -/
def envOnePdfPerPage : Nat → PageResponse :=
  fun _ => .http 200 (.parsed (some [some "a.pdf"]))

/-- Does `search_pdfs` treat this page response as a failure that breaks
pagination (any `requests` exception, a non-200 status, or a JSON parse
error)?  A 200 response whose body merely lacks `items` is not a failure. -/
def pageFails : PageResponse → Bool
  | .exn => true
  | .http _ .malformed => true
  | .http code (.parsed _) => code != 200

end PdfSearchDownload

/-! ## Helper lemmas: the download loop -/

namespace PdfSearchDownload

theorem fsSize_fsWrite (fs : Fs) (p : DocPath) (b : Nat) : fsSize (fsWrite fs p b) p = b := by
  simp [fsSize, fsWrite]

theorem processUrl_snd (dir : String) (fs fs' : Fs) (i : Nat) (url : String) (resp : DlResponse) :
    (processUrl dir fs i url resp).2 = (processUrl dir fs' i url resp).2 := by
  cases resp with
  | timeout => rfl
  | connError => rfl
  | otherExc m => rfl
  | http status ct body =>
    cases body <;> simp only [processUrl, fsSize_fsWrite] <;> (try split_ifs) <;> rfl

theorem downloadLoop_length (dir : String) (env : Nat → DlResponse) :
    ∀ (urls : List String) (j : Nat) (fs : Fs),
      (downloadLoop dir env urls j fs).2.length = urls.length
  | [], _, _ => rfl
  | _ :: rest, j, fs => by
    simp [downloadLoop, downloadLoop_length dir env rest (j + 1)]

theorem downloadLoop_get? (dir : String) (env : Nat → DlResponse) :
    ∀ (urls : List String) (j : Nat) (fs : Fs) (i : Nat),
      (downloadLoop dir env urls j fs).2.get? i =
        (urls.get? i).map (fun u => (processUrl dir emptyFs (j + i + 1) u (env (j + i))).2)
  | [], _, _, _ => by simp [downloadLoop]
  | u :: rest, j, fs, 0 =>
    congrArg some (processUrl_snd dir fs emptyFs (j + 1) u (env j))
  | u :: rest, j, fs, i + 1 => by
    have h : j + 1 + i = j + (i + 1) := by omega
    show (downloadLoop dir env rest (j + 1) (processUrl dir fs (j + 1) u (env j)).1).2.get? i = _
    rw [downloadLoop_get? dir env rest (j + 1) _ i, h]
    rfl

theorem processUrl_fst_ne (dir : String) (fs : Fs) (i : Nat) (url : String) (resp : DlResponse)
    (q : DocPath) (h : q ≠ docPath dir i) :
    (processUrl dir fs i url resp).1 q = fs q := by
  cases resp with
  | timeout => rfl
  | connError => rfl
  | otherExc m => rfl
  | http status ct body =>
    cases body <;> simp only [processUrl] <;> (try split_ifs) <;>
      simp [fsWrite, fsRemove, h]

theorem downloadLoop_fst_le (dir : String) (env : Nat → DlResponse) :
    ∀ (urls : List String) (j : Nat) (fs : Fs) (q : DocPath), q.idx ≤ j →
      (downloadLoop dir env urls j fs).1 q = fs q
  | [], _, _, _, _ => rfl
  | u :: rest, j, fs, q, hq => by
    show (downloadLoop dir env rest (j + 1) (processUrl dir fs (j + 1) u (env j)).1).1 q = fs q
    rw [downloadLoop_fst_le dir env rest (j + 1) _ q (by omega)]
    refine processUrl_fst_ne dir fs (j + 1) u (env j) q (fun hc => ?_)
    subst hc
    simp [docPath] at hq

theorem processUrl_own_facts (dir : String) (fs : Fs) (i : Nat) (url : String)
    (resp : DlResponse) (h : fs (docPath dir i) = none) :
    (∀ p b, (processUrl dir fs i url resp).2 = .success p b →
      (processUrl dir fs i url resp).1 (docPath dir i) = some b ∧ 0 < b ∧
        p = docPath dir i) ∧
    (∀ ct, (processUrl dir fs i url resp).2 = .skippedWrongType ct →
      (processUrl dir fs i url resp).1 (docPath dir i) = none) ∧
    (∀ s, (processUrl dir fs i url resp).2 = .skippedHTTPError s →
      (processUrl dir fs i url resp).1 (docPath dir i) = none) ∧
    ((processUrl dir fs i url resp).2 = .failed .emptyDownload →
      (processUrl dir fs i url resp).1 (docPath dir i) = none) := by
  cases resp with
  | timeout => simp [processUrl, h]
  | connError => simp [processUrl, h]
  | otherExc m => simp [processUrl, h]
  | http status ct body =>
    cases body with
    | complete b =>
      simp only [processUrl, fsSize_fsWrite]
      (try split_ifs) <;> simp_all [fsWrite, fsRemove]
    | interrupted b e =>
      simp only [processUrl]
      (try split_ifs) <;> cases e <;>
        simp_all [fsWrite, fsRemove, ExcKind.toFailKind]

theorem downloadLoop_own_facts (dir : String) (env : Nat → DlResponse) :
    ∀ (urls : List String) (j : Nat) (fs : Fs) (i : Nat), i < urls.length →
      fs (docPath dir (j + i + 1)) = none →
      ∃ o, (downloadLoop dir env urls j fs).2.get? i = some o ∧
        (∀ p b, o = .success p b →
          (downloadLoop dir env urls j fs).1 (docPath dir (j + i + 1)) = some b ∧ 0 < b ∧
            p = docPath dir (j + i + 1)) ∧
        (∀ ct, o = .skippedWrongType ct →
          (downloadLoop dir env urls j fs).1 (docPath dir (j + i + 1)) = none) ∧
        (∀ s, o = .skippedHTTPError s →
          (downloadLoop dir env urls j fs).1 (docPath dir (j + i + 1)) = none) ∧
        (o = .failed .emptyDownload →
          (downloadLoop dir env urls j fs).1 (docPath dir (j + i + 1)) = none)
  | [], _, _, _, hi, _ => by simp at hi
  | u :: rest, j, fs, 0, _, h0 => by
    refine ⟨(processUrl dir fs (j + 1) u (env j)).2, rfl, ?_⟩
    have hfin : (downloadLoop dir env (u :: rest) j fs).1 (docPath dir (j + 0 + 1)) =
        (processUrl dir fs (j + 1) u (env j)).1 (docPath dir (j + 1)) :=
      downloadLoop_fst_le dir env rest (j + 1) _ (docPath dir (j + 1)) (by simp [docPath])
    rw [hfin]
    exact processUrl_own_facts dir fs (j + 1) u (env j) h0
  | u :: rest, j, fs, i + 1, hi, h0 => by
    have harith : j + 1 + i = j + (i + 1) := by omega
    have h0' : (processUrl dir fs (j + 1) u (env j)).1 (docPath dir (j + 1 + i + 1)) = none := by
      rw [processUrl_fst_ne dir fs (j + 1) u (env j) _ (fun hc => by
        have hidx := congrArg DocPath.idx hc; simp [docPath] at hidx; omega)]
      rw [harith]; exact h0
    have hrec := downloadLoop_own_facts dir env rest (j + 1)
      (processUrl dir fs (j + 1) u (env j)).1 i (by simpa using hi) h0'
    rw [harith] at hrec
    exact hrec

end PdfSearchDownload

/-! ## Helper lemmas: the search loop -/

namespace PdfSearchDownload

theorem pySliceTo_subset (l : List String) (n : Int) : pySliceTo l n ⊆ l := by
  unfold pySliceTo; split
  · exact List.take_subset _ _
  · exact List.take_subset _ _

theorem scanItems_mem (n : Int) :
    ∀ (acc : List String) (its : List (Option String)),
      (∀ u ∈ acc, endsWithPdfCI u = true) →
      ∀ u ∈ (scanItems n acc its).1, endsWithPdfCI u = true := by
  intro acc its
  induction its generalizing acc with
  | nil => intro h; simpa [scanItems] using h
  | cons item rest ih =>
    intro h
    match item with
    | none => simpa [scanItems] using ih acc h
    | some link =>
      by_cases hp : endsWithPdfCI link = true
      · have hall : ∀ u ∈ acc ++ [link], endsWithPdfCI u = true := by
          intro v hv
          rcases List.mem_append.1 hv with h1 | h2
          · exact h v h1
          · simp at h2; subst h2; exact hp
        intro u hu
        simp only [scanItems, hp, if_true] at hu
        split at hu
        · exact hall u (pySliceTo_subset (acc ++ [link]) n hu)
        · exact ih (acc ++ [link]) hall u hu
      · intro u hu
        simp only [scanItems, hp, Bool.false_eq_true, if_false] at hu
        exact ih acc h u hu

theorem scanItems_len (n : Int) :
    ∀ (acc : List String) (its : List (Option String)), (acc.length : Int) < n →
      (((scanItems n acc its).2 = true → ((scanItems n acc its).1.length : Int) ≤ n) ∧
       ((scanItems n acc its).2 = false → ((scanItems n acc its).1.length : Int) < n)) := by
  intro acc its
  induction its generalizing acc with
  | nil =>
    intro hacc
    exact ⟨fun hc => by simp [scanItems] at hc, fun _ => by simpa [scanItems] using hacc⟩
  | cons item rest ih =>
    intro hacc
    match item with
    | none => simpa [scanItems] using ih acc hacc
    | some link =>
      by_cases hp : endsWithPdfCI link = true
      · simp only [scanItems, hp, if_true]
        split
        next hl =>
          refine ⟨fun _ => ?_, fun hc => by simp at hc⟩
          have h0n : 0 ≤ n := by omega
          simp [pySliceTo, h0n, List.length_take]
        next hl =>
          refine ih (acc ++ [link]) ?_
          simp only [not_le] at hl
          simpa using hl
      · simp only [scanItems, hp, Bool.false_eq_true, if_false]
        exact ih acc hacc

theorem scanItems_true_ne_nil (n : Int) (hn : (1 : Int) ≤ n) :
    ∀ (acc : List String) (its : List (Option String)),
      (scanItems n acc its).2 = true → (scanItems n acc its).1 ≠ [] := by
  intro acc its
  induction its generalizing acc with
  | nil => intro hc; simp [scanItems] at hc
  | cons item rest ih =>
    match item with
    | none => simpa [scanItems] using ih acc
    | some link =>
      by_cases hp : endsWithPdfCI link = true
      · intro hfl
        simp only [scanItems, hp, if_true] at hfl ⊢
        split at hfl
        next hl =>
          rw [if_pos hl]
          have h0n : 0 ≤ n := by omega
          simp [pySliceTo, h0n, List.take_eq_nil_iff]
          omega
        next hl =>
          rw [if_neg hl]
          exact ih (acc ++ [link]) hfl
      · simp only [scanItems, hp, Bool.false_eq_true, if_false]
        exact ih acc

end PdfSearchDownload

namespace PdfSearchDownload

theorem searchLoop_succ_cases (nR : Int) (env : Nat → PageResponse) (r i : Nat)
    (acc : List String) :
    searchLoop nR env (r + 1) i acc = addStart ((i : Int) * 10 + 1) (finishSearch acc) ∨
    (∃ its, env i = .http 200 (.parsed (some its)) ∧ (scanItems nR acc its).2 = true ∧
      searchLoop nR env (r + 1) i acc =
        addStart ((i : Int) * 10 + 1) ⟨(scanItems nR acc its).1, [], 1⟩) ∨
    (∃ acc', pageFails (env i) = false ∧
      searchLoop nR env (r + 1) i acc =
        addStart ((i : Int) * 10 + 1) (searchLoop nR env r (i + 1) acc') ∧
      (acc' = acc ∨ ∃ its, env i = .http 200 (.parsed (some its)) ∧
        (scanItems nR acc its).2 = false ∧ acc' = (scanItems nR acc its).1)) := by
  cases henv : env i with
  | exn => left; simp [searchLoop, henv]
  | http code items =>
    by_cases h400 : code = 400
    · left; simp [searchLoop, henv, h400]
    · by_cases h403 : code = 403
      · left; simp [searchLoop, henv, h400, h403]
      · by_cases h200 : code = 200
        · subst h200
          cases items with
          | malformed => left; simp [searchLoop, henv]
          | parsed ob =>
            cases ob with
            | none =>
              right; right
              exact ⟨acc, by simp [pageFails, henv],
                by simp [searchLoop, henv], Or.inl rfl⟩
            | some its =>
              by_cases hf : (scanItems nR acc its).2 = true
              · right; left
                exact ⟨its, rfl, hf, by simp [searchLoop, henv, hf]⟩
              · right; right
                refine ⟨(scanItems nR acc its).1, by simp [pageFails, henv], ?_,
                  Or.inr ⟨its, rfl, by simpa using hf, rfl⟩⟩
                simp [searchLoop, henv, hf]
        · left; simp [searchLoop, henv, h400, h403, h200]

end PdfSearchDownload

namespace PdfSearchDownload

theorem searchLoop_starts_le (nR : Int) (env : Nat → PageResponse) :
    ∀ (r i : Nat) (acc : List String), (searchLoop nR env r i acc).starts.length ≤ r := by
  intro r
  induction r with
  | zero => intro i acc; simp [searchLoop, finishSearch]
  | succ r ih =>
    intro i acc
    rcases searchLoop_succ_cases nR env r i acc with h | ⟨its, _, _, h⟩ | ⟨acc', _, h, _⟩
    · rw [h]; simp [addStart, finishSearch]
    · rw [h]; simp [addStart]
    · rw [h]; simpa [addStart] using ih (i + 1) acc'

theorem searchLoop_starts_get (nR : Int) (env : Nat → PageResponse) :
    ∀ (r i : Nat) (acc : List String) (j : Nat)
      (hj : j < (searchLoop nR env r i acc).starts.length),
      (searchLoop nR env r i acc).starts.get ⟨j, hj⟩ = ((i + j : Nat) : Int) * 10 + 1 := by
  intro r
  induction r with
  | zero => intro i acc j hj; simp [searchLoop, finishSearch] at hj
  | succ r ih =>
    intro i acc j hj
    rcases searchLoop_succ_cases nR env r i acc with h | ⟨its, _, _, h⟩ | ⟨acc', _, h, _⟩ <;>
      revert hj <;> rw [h] <;> intro hj
    · match j, hj with
      | 0, _ => simp [addStart]
      | j + 1, hj => simp [addStart, finishSearch] at hj
    · match j, hj with
      | 0, _ => simp [addStart]
      | j + 1, hj => simp [addStart] at hj
    · match j, hj with
      | 0, _ => simp [addStart]
      | j + 1, hj =>
        have harith : i + 1 + j = i + (j + 1) := by omega
        have hj' : j < (searchLoop nR env r (i + 1) acc').starts.length := by
          simpa [addStart] using hj
        have hrec := ih (i + 1) acc' j hj'
        rw [harith] at hrec
        simpa [addStart] using hrec

theorem searchLoop_stop_fail (nR : Int) (env : Nat → PageResponse) :
    ∀ (r k : Nat) (acc : List String) (i : Nat), k ≤ i → pageFails (env i) = true →
      (searchLoop nR env r k acc).starts.length ≤ i + 1 - k := by
  intro r
  induction r with
  | zero => intro k acc i hk hf; simp [searchLoop, finishSearch]
  | succ r ih =>
    intro k acc i hk hf
    rcases searchLoop_succ_cases nR env r k acc with h | ⟨its, _, _, h⟩ | ⟨acc', hnf, h, _⟩
    · rw [h]; simp [addStart, finishSearch]; omega
    · rw [h]; simp [addStart]; omega
    · have hki : k ≠ i := fun he => by rw [he, hf] at hnf; cases hnf
      rw [h]
      have hrec := ih (k + 1) acc' i (by omega) hf
      simp only [addStart, List.length_cons]
      omega

theorem searchLoop_saves (nR : Int) (env : Nat → PageResponse) (hn : (1 : Int) ≤ nR) :
    ∀ (r i : Nat) (acc : List String),
      (searchLoop nR env r i acc).saves =
        if (searchLoop nR env r i acc).urls.isEmpty then 0 else 1 := by
  intro r
  induction r with
  | zero => intro i acc; simp [searchLoop, finishSearch]
  | succ r ih =>
    intro i acc
    rcases searchLoop_succ_cases nR env r i acc with h | ⟨its, _, hfl, h⟩ | ⟨acc', _, h, _⟩
    · rw [h]; simp [addStart, finishSearch]
    · rw [h]
      have hne := scanItems_true_ne_nil nR hn acc its hfl
      simp [addStart, List.isEmpty_iff, hne]
    · rw [h]; simpa [addStart] using ih (i + 1) acc'

theorem searchLoop_mem (nR : Int) (env : Nat → PageResponse) :
    ∀ (r i : Nat) (acc : List String), (∀ u ∈ acc, endsWithPdfCI u = true) →
      ∀ u ∈ (searchLoop nR env r i acc).urls, endsWithPdfCI u = true := by
  intro r
  induction r with
  | zero => intro i acc h; simpa [searchLoop, finishSearch] using h
  | succ r ih =>
    intro i acc h
    rcases searchLoop_succ_cases nR env r i acc with hc | ⟨its, _, _, hc⟩ | ⟨acc', _, hc, hs⟩
    · rw [hc]; simpa [addStart, finishSearch] using h
    · rw [hc]; simpa [addStart] using scanItems_mem nR acc its h
    · rw [hc]
      simp only [addStart]
      refine ih (i + 1) acc' ?_
      rcases hs with rfl | ⟨its, _, _, rfl⟩
      · exact h
      · exact scanItems_mem nR acc its h

theorem searchLoop_urls_len (nR : Int) (env : Nat → PageResponse) :
    ∀ (r i : Nat) (acc : List String), (acc.length : Int) < nR →
      ((searchLoop nR env r i acc).urls.length : Int) ≤ nR := by
  intro r
  induction r with
  | zero => intro i acc h; simp [searchLoop, finishSearch]; omega
  | succ r ih =>
    intro i acc h
    rcases searchLoop_succ_cases nR env r i acc with hc | ⟨its, _, hfl, hc⟩ | ⟨acc', _, hc, hs⟩
    · rw [hc]; simp [addStart, finishSearch]; omega
    · rw [hc]
      simpa [addStart] using (scanItems_len nR acc its h).1 hfl
    · rw [hc]
      simp only [addStart]
      refine ih (i + 1) acc' ?_
      rcases hs with rfl | ⟨its, _, hfl, rfl⟩
      · exact h
      · exact (scanItems_len nR acc its h).2 hfl

end PdfSearchDownload

namespace PdfSearchDownload

theorem searchPdfs_eq (q : String) (n : Int) (env : Nat → PageResponse) :
    searchPdfs q n env = ⟨[], [], 0⟩ ∨
      searchPdfs q n env = searchLoop n env (min 10 ((n + 9).fdiv 10)).toNat 0 [] := by
  unfold searchPdfs
  by_cases hq : pyStripIsEmpty q = true
  · left; simp [hq]
  · right; simp [hq]

end PdfSearchDownload

/-! ## Claim theorems -/

namespace PdfSearchDownload

/-- Claim C1: for every list of URLs, destination directory, response
environment and initial directory state, `download_pdfs` produces exactly one
`DownloadOutcome` per input URL, in input order (the `i`-th outcome is the
classification of the `i`-th URL under its own response), and a per-URL
failure never aborts the loop — the equation holds for every environment,
failing responses included. -/
theorem download_one_outcome_per_url (urls : List String) (dir : String)
    (env : Nat → DlResponse) (fs0 : Fs) :
    (downloadPdfs urls dir env fs0).2.length = urls.length ∧
    ∀ i, (downloadPdfs urls dir env fs0).2.get? i =
      (urls.get? i).map (fun u => (processUrl dir emptyFs (i + 1) u (env i)).2) :=
  ⟨downloadLoop_length dir env urls 0 fs0, fun i => by
    have h := downloadLoop_get? dir env urls 0 fs0 i
    simpa using h⟩

/-- Claim C2 (amended): for every URL processed by `download_pdfs` whose
positional path held no pre-existing file: a `success` outcome leaves a
file there of exactly the streamed size, which is non-zero; a
`skippedWrongType` or `skippedHTTPError` outcome leaves no file (those
branches never create one); and a fully streamed zero-byte body is deleted
before the function returns (`failed emptyDownload` leaves no file).  The
converse — file existence implying `success` — is false of the program:
a mid-stream exception after a 200 response leaves the partial file in
place with a `failed` outcome, and a stale pre-existing file survives a
skipped outcome (see the counterexample). -/
theorem download_file_success_facts (urls : List String) (dir : String)
    (env : Nat → DlResponse) (fs0 : Fs) (i : Nat) (hi : i < urls.length)
    (h0 : fs0 (docPath dir (i + 1)) = none) :
    ∃ o, (downloadPdfs urls dir env fs0).2.get? i = some o ∧
      (∀ p b, o = .success p b →
        (downloadPdfs urls dir env fs0).1 (docPath dir (i + 1)) = some b ∧ 0 < b ∧
          p = docPath dir (i + 1)) ∧
      (∀ ct, o = .skippedWrongType ct →
        (downloadPdfs urls dir env fs0).1 (docPath dir (i + 1)) = none) ∧
      (∀ s, o = .skippedHTTPError s →
        (downloadPdfs urls dir env fs0).1 (docPath dir (i + 1)) = none) ∧
      (o = .failed .emptyDownload →
        (downloadPdfs urls dir env fs0).1 (docPath dir (i + 1)) = none) := by
  have h := downloadLoop_own_facts dir env urls 0 fs0 i hi (by simpa using h0)
  simpa using h

/-- Witness for C2: one URL answering 200/`application/pdf` with a complete
7-byte body into an empty directory. -/
theorem download_file_success_facts_witness :
    ∃ o, (downloadPdfs ["http://a.pdf"] "d"
        (dlEnvOf (.http 200 "application/pdf" (.complete 7))) emptyFs).2.get? 0 = some o ∧
      (∀ p b, o = .success p b →
        (downloadPdfs ["http://a.pdf"] "d"
          (dlEnvOf (.http 200 "application/pdf" (.complete 7))) emptyFs).1
            (docPath "d" 1) = some b ∧ 0 < b ∧ p = docPath "d" 1) ∧
      (∀ ct, o = .skippedWrongType ct →
        (downloadPdfs ["http://a.pdf"] "d"
          (dlEnvOf (.http 200 "application/pdf" (.complete 7))) emptyFs).1
            (docPath "d" 1) = none) ∧
      (∀ s, o = .skippedHTTPError s →
        (downloadPdfs ["http://a.pdf"] "d"
          (dlEnvOf (.http 200 "application/pdf" (.complete 7))) emptyFs).1
            (docPath "d" 1) = none) ∧
      (o = .failed .emptyDownload →
        (downloadPdfs ["http://a.pdf"] "d"
          (dlEnvOf (.http 200 "application/pdf" (.complete 7))) emptyFs).1
            (docPath "d" 1) = none) :=
  download_file_success_facts ["http://a.pdf"] "d"
    (dlEnvOf (.http 200 "application/pdf" (.complete 7))) emptyFs 0 (by decide) rfl

/-- Counterexample to C2 as stated (`file exists iff outcome is Success`):
(a) with a stale 5-byte file already at positional path 1 and a URL
answering HTTP 404, the outcome is `skippedHTTPError 404` yet a file still
exists at that path; (b) even in a fresh directory, a 200 PDF response
whose stream is interrupted by a timeout after 3 bytes leaves a 3-byte
file at the positional path while the outcome is `failed timeout` — the
exception handler sits outside the size-check/remove, so the partial file
is never cleaned up. -/
theorem download_file_success_facts_counterexample :
    (((downloadPdfs ["http://a.pdf"] "d" (dlEnvOf (.http 404 "" (.complete 0))) staleFs).1
        (docPath "d" 1)).isSome = true ∧
      (downloadPdfs ["http://a.pdf"] "d" (dlEnvOf (.http 404 "" (.complete 0))) staleFs).2 =
        [.skippedHTTPError 404]) ∧
    ((downloadPdfs ["http://a.pdf"] "d"
        (dlEnvOf (.http 200 "application/pdf" (.interrupted 3 .timeout))) emptyFs).1
          (docPath "d" 1) = some 3 ∧
      (downloadPdfs ["http://a.pdf"] "d"
        (dlEnvOf (.http 200 "application/pdf" (.interrupted 3 .timeout))) emptyFs).2 =
          [.failed .timeout]) :=
  ⟨⟨rfl, rfl⟩, ⟨rfl, rfl⟩⟩

/-- Claim C3: for every query, every nonnegative requested count and every
page environment, `search_pdfs` returns at most `count` URLs; and (scenario)
with 30 matching items on the first page and a requested count of 5, item
scanning and paging stop at once with exactly the truncated-to-5 slice, a
single page request, and one save. -/
theorem search_len_le_count (q : String) (n : Int) (env : Nat → PageResponse) (hn : 0 ≤ n) :
    (((searchPdfs q n env).urls.length : Int) ≤ n) ∧
      searchPdfs "x" 5 envAbundant = ⟨List.replicate 5 "a.pdf", [1], 1⟩ := by
  refine ⟨?_, by decide⟩
  unfold searchPdfs
  by_cases hq : pyStripIsEmpty q = true
  · simp [hq]; omega
  · simp only [hq, Bool.false_eq_true, if_false]
    by_cases h1 : (1 : Int) ≤ n
    · exact searchLoop_urls_len n env _ 0 [] (by simpa using h1)
    · have hn0 : n = 0 := by omega
      subst hn0
      have h9 : ((0 : Int) + 9).fdiv 10 = 0 := by decide
      simp [h9, searchLoop, finishSearch]

/-- Witness for C3 at query `"x"`, count 3, all pages answering 403. -/
theorem search_len_le_count_witness :
    ((searchPdfs "x" 3 envAll403).urls.length : Int) ≤ 3 :=
  (search_len_le_count "x" 3 envAll403 (by decide)).1

/-- Claim C4 (amended): for every query, every *nonnegative* requested count
and every page environment, `search_pdfs` issues at most
`min(10, ceil(count / 10))` page requests — hence never more than 10 — and
the `j`-th issued page request (0-based) uses start offset `j*10 + 1`; a
requested count of 15 yields exactly 2 page requests with start offsets 1
and 11 unless satisfied after the first *or a page request fails*. -/
theorem search_page_request_bound (q : String) (n : Int) (env : Nat → PageResponse)
    (hn : 0 ≤ n) :
    (((searchPdfs q n env).starts.length : Int) ≤ min 10 ((n + 9).fdiv 10)) ∧
    (∀ j (hj : j < (searchPdfs q n env).starts.length),
        (searchPdfs q n env).starts.get ⟨j, hj⟩ = (j : Int) * 10 + 1) ∧
    (searchPdfs "x" 15 envOnePdfPerPage).starts = [1, 11] := by
  refine ⟨?_, ?_, by decide⟩
  · unfold searchPdfs
    by_cases hq : pyStripIsEmpty q = true
    · simp only [hq, if_true]
      simp only [SearchTrace.starts, List.length_nil, Nat.cast_zero]
      rw [Int.fdiv_eq_ediv _ (by norm_num)]
      omega
    · simp only [hq, Bool.false_eq_true, if_false]
      have hle := searchLoop_starts_le n env (min 10 ((n + 9).fdiv 10)).toNat 0 []
      have htn : (((min 10 ((n + 9).fdiv 10)).toNat : Int)) = min 10 ((n + 9).fdiv 10) := by
        rw [Int.fdiv_eq_ediv _ (by norm_num)]
        omega
      omega
  · rcases searchPdfs_eq q n env with hS | hS <;> rw [hS]
    · intro j hj
      exact absurd hj (by simp)
    · intro j hj
      have h := searchLoop_starts_get n env _ 0 [] j hj
      simpa using h

/-- Witness for C4 at query `"x"`, count 3, all pages answering 403. -/
theorem search_page_request_bound_witness :
    ((searchPdfs "x" 3 envAll403).starts.length : Int) ≤ min 10 (((3 : Int) + 9).fdiv 10) :=
  (search_page_request_bound "x" 3 envAll403 (by decide)).1

/-- Counterexample to C4 as stated: (a) with a requested count of 15 and
HTTP 403 on the first page, only one page request is issued (start offset 1)
and the search is not satisfied (it returns no URLs), contradicting
"exactly 2 page requests unless satisfied after the first"; (b) for the
requested count -100 the claimed bound `min(10, ceil(count/10))` is -10,
which the actual number of issued requests (zero) exceeds. -/
theorem search_page_request_bound_counterexample :
    ((searchPdfs "x" 15 envAll403).starts = [1] ∧ (searchPdfs "x" 15 envAll403).urls = []) ∧
    ¬(((searchPdfs "x" (-100) envAll403).starts.length : Int) ≤
        min 10 (((-100 : Int) + 9).fdiv 10)) := by
  decide

/-- Claim C5: for every count and environment, an empty or whitespace-only
query makes `search_pdfs` return the empty result immediately: no URLs, no
page request issued, no save, and (being a total function of the model) no
exception. -/
theorem search_empty_query (q : String) (n : Int) (env : Nat → PageResponse)
    (hq : pyStripIsEmpty q = true) :
    searchPdfs q n env = ⟨[], [], 0⟩ := by
  simp [searchPdfs, hq]

/-- Witness for C5 at the empty query and a whitespace-only query. -/
theorem search_empty_query_witness :
    searchPdfs "" 10 envOnePdfPerPage = ⟨[], [], 0⟩ ∧
    searchPdfs " \t " 10 envOnePdfPerPage = ⟨[], [], 0⟩ :=
  ⟨search_empty_query "" 10 envOnePdfPerPage (by decide),
   search_empty_query " \t " 10 envOnePdfPerPage (by decide)⟩

/-- Claim C6: every URL in the list returned by `search_pdfs`
case-insensitively ends in `.pdf`; items whose link does not pass this check
are never appended. -/
theorem search_urls_end_pdf (q : String) (n : Int) (env : Nat → PageResponse) (u : String)
    (hu : u ∈ (searchPdfs q n env).urls) : endsWithPdfCI u = true := by
  revert hu
  unfold searchPdfs
  by_cases hq : pyStripIsEmpty q = true
  · simp [hq]
  · simp only [hq, Bool.false_eq_true, if_false]
    exact searchLoop_mem n env _ 0 [] (by simp) u

/-- Witness for C6: the URL returned for a one-match page. -/
theorem search_urls_end_pdf_witness : endsWithPdfCI "a.pdf" = true :=
  search_urls_end_pdf "x" 1 envOnePdfPerPage "a.pdf" (by decide)

/-- Claim C7: for every query, count and environment, if the page request at
index `i` fails (HTTP 400, 403, any other non-200 status, a transport
exception, or a malformed body), then `search_pdfs` issues no page request
beyond it — at most `i + 1` requests in total — returning the accumulated
results without an exception; in particular (scenario) HTTP 403 on the first
page yields the empty result with exactly one page request and no save. -/
theorem search_stops_on_page_failure (q : String) (n : Int) (env : Nat → PageResponse)
    (i : Nat) (hf : pageFails (env i) = true) :
    (searchPdfs q n env).starts.length ≤ i + 1 ∧
      searchPdfs "x" 10 envAll403 = ⟨[], [1], 0⟩ := by
  refine ⟨?_, by decide⟩
  unfold searchPdfs
  by_cases hq : pyStripIsEmpty q = true
  · simp [hq]
  · simp only [hq, Bool.false_eq_true, if_false]
    have h := searchLoop_stop_fail n env (min 10 ((n + 9).fdiv 10)).toNat 0 [] i
      (Nat.zero_le i) hf
    simpa using h

/-- Witness for C7: 403 on page 0. -/
theorem search_stops_on_page_failure_witness :
    (searchPdfs "x" 10 envAll403).starts.length ≤ 0 + 1 ∧
      searchPdfs "x" 10 envAll403 = ⟨[], [1], 0⟩ :=
  search_stops_on_page_failure "x" 10 envAll403 0 (by decide)

/-- Claim C8: for every query, count and environment, `search_pdfs` runs
`save_links_to_file` exactly once when it returns at least one URL (whether
through the early-stop return or the terminal return), and not at all when
it returns none. -/
theorem search_save_iff_nonempty (q : String) (n : Int) (env : Nat → PageResponse) :
    (searchPdfs q n env).saves = if (searchPdfs q n env).urls.isEmpty then 0 else 1 := by
  unfold searchPdfs
  by_cases hq : pyStripIsEmpty q = true
  · simp [hq]
  · simp only [hq, Bool.false_eq_true, if_false]
    by_cases h1 : (1 : Int) ≤ n
    · exact searchLoop_saves n env h1 _ 0 []
    · have hreq : (min 10 ((n + 9).fdiv 10)).toNat = 0 := by
        rw [Int.fdiv_eq_ediv _ (by norm_num)]
        omega
      simp [hreq, searchLoop, finishSearch]

/-- Claim C9 (amended): the count consumed from `main`'s input is clamped
from above to 100 (and a failed integer parse defaults to 10), but it is
*not* raised to 1: integer inputs below 1 pass through unchanged. -/
theorem main_count_clamped_above (input : Option Int) :
    mainNumResults input ≤ 100 ∧ mainNumResults none = 10 := by
  refine ⟨?_, rfl⟩
  cases input <;> simp [mainNumResults]

/-- Counterexample to C9 as stated: the integer input 0 is passed to the
search as 0, which is not at least 1. -/
theorem main_count_clamped_above_counterexample :
    mainNumResults (some 0) = 0 ∧ ¬(1 ≤ mainNumResults (some 0)) := by
  decide

/-- Claim C10: for every query, environment, and count at most 0, the
computed number of page requests `min(10, (count + 9) // 10)` is not
positive, so `search_pdfs` issues no page request, returns the empty
sequence and saves nothing. -/
theorem search_nonpositive_count (q : String) (n : Int) (env : Nat → PageResponse)
    (hn : n ≤ 0) :
    searchPdfs q n env = ⟨[], [], 0⟩ ∧ min 10 ((n + 9).fdiv 10) ≤ 0 := by
  have hfd : min 10 ((n + 9).fdiv 10) ≤ 0 := by
    rw [Int.fdiv_eq_ediv _ (by norm_num)]
    omega
  refine ⟨?_, hfd⟩
  unfold searchPdfs
  by_cases hq : pyStripIsEmpty q = true
  · simp [hq]
  · have hreq : (min 10 ((n + 9).fdiv 10)).toNat = 0 := by omega
    simp [hq, hreq, searchLoop, finishSearch]

/-- Witness for C10 at count 0. -/
theorem search_nonpositive_count_witness :
    searchPdfs "x" 0 envOnePdfPerPage = ⟨[], [], 0⟩ ∧
      min 10 (((0 : Int) + 9).fdiv 10) ≤ 0 :=
  search_nonpositive_count "x" 0 envOnePdfPerPage (by decide)

end PdfSearchDownload
